import Mathlib

/-!
Verification of the lead-capture repository: the session store
(`src/lib/lead-store.ts`) and the submission flow of the form component
(`LeadCaptureForm` / `handleSubmit`).  The store and the controller are
embedded as pure Lean functions; the two remote calls (database insert and
confirmation-email invocation) are parameters describing their outcomes, and
the controller additionally records a trace of the calls it issues.
-/

namespace LeadCapture

/-- The `Lead` record of `lead-store.ts`.  The controller attaches an extra
`emailSent` flag when it hands a lead to `addLead` (`{...lead, emailSent: b}`);
a plain lead, as first constructed, carries `none` there. -/
structure Lead where
  name : String
  email : String
  industry : String
  submitted_at : String
  emailSent : Option Bool
  deriving DecidableEq, Repr

/-- The state held by `useLeadStore`: submitted flag, session lead list,
last error message, loading flag. -/
structure LeadStore where
  submitted : Bool
  sessionLeads : List Lead
  error : Option String
  isLoading : Bool
  deriving DecidableEq, Repr

/-- The initial state of the store as created by `create(...)`. -/
def initialStore : LeadStore :=
  { submitted := false, sessionLeads := [], error := none, isLoading := false }

/-- `setSubmitted` of `lead-store.ts`: unconditionally set the flag. -/
def setSubmitted (s : LeadStore) (b : Bool) : LeadStore :=
  { s with submitted := b }

/-- `addLead` of `lead-store.ts`.  JavaScript `!lead.name || !lead.email`
on strings is the emptiness test; the duplicate check is
`sessionLeads.find(l => l.email === lead.email)`; a successful add appends and
clears the error, a failed add records the thrown message and leaves the
list alone. -/
def addLead (s : LeadStore) (lead : Lead) : LeadStore :=
  if lead.name = "" ∨ lead.email = "" then
    { s with error := some "Invalid lead data: name and email are required" }
  else if (s.sessionLeads.find? (fun l => l.email == lead.email)).isSome then
    { s with error := some "A lead with this email already exists in this session" }
  else
    { s with sessionLeads := s.sessionLeads ++ [lead], error := none }

/-- `clearError` of `lead-store.ts`. -/
def clearError (s : LeadStore) : LeadStore :=
  { s with error := none }

/-- `setLoading` of `lead-store.ts`. -/
def setLoading (s : LeadStore) (b : Bool) : LeadStore :=
  { s with isLoading := b }

/-- One invocation of a store operation, for reasoning about every state
reachable through the store interface. -/
inductive StoreOp where
  | opSetSubmitted (b : Bool)
  | opAddLead (lead : Lead)
  | opClearError
  | opSetLoading (b : Bool)
  deriving DecidableEq, Repr

/-- Apply one store operation. -/
def applyOp (s : LeadStore) : StoreOp → LeadStore
  | .opSetSubmitted b => setSubmitted s b
  | .opAddLead lead => addLead s lead
  | .opClearError => clearError s
  | .opSetLoading b => setLoading s b

/-- Run a sequence of store operations from a state. -/
def runOps (s : LeadStore) (ops : List StoreOp) : LeadStore :=
  ops.foldl applyOp s

/-- No two leads of the session collection share an email. -/
def emailsUnique (s : LeadStore) : Prop :=
  (s.sessionLeads.map Lead.email).Nodup

/-- The raw form fields held in the component state `formData`. -/
structure FormData where
  name : String
  email : String
  industry : String
  deriving DecidableEq, Repr

/-- A field-level validation error, as in `@/lib/validation`. -/
structure ValidationError where
  field : String
  message : String
  deriving DecidableEq, Repr

/-- The `value`s of the industry `SelectItem`s of the form component. -/
def allowedIndustries : List String :=
  ["technology", "healthcare", "finance", "education", "retail",
   "manufacturing", "consulting", "other"]

/-- A run of characters acceptable on either side of the `@` of an email:
non-empty, no whitespace, no further `@`. -/
def plainRun (l : List Char) : Bool :=
  !l.isEmpty && l.all (fun c => !c.isWhitespace && c ≠ '@')

/-- Modelled from the spec: the permissive email-shape check used by the
missing `src/lib/validation.ts` (spec section 4.1, "empty or does not match a
permissive email-shape regular expression", in the style of
`^[^\s@]+@[^\s@]+\.[^\s@]+$`): one `@` with non-blank text before it and a
dotted domain after it whose dot is interior. -/
def emailShape (s : String) : Bool :=
  match s.data.span (fun c => c ≠ '@') with
  | (_, []) => false
  | (lp, _ :: dom) =>
    plainRun lp && plainRun dom && dom.contains '.' &&
      dom.head? != some '.' && dom.getLast? != some '.'

/-- Modelled from the spec: `validateLeadForm` of the missing
`src/lib/validation.ts` (spec section 4.1): `name` fails if empty or
whitespace-only, `email` fails if empty or not email-shaped, `industry` fails
if not one of the fixed allowed set; one error per offending field, in the
stable order name, email, industry. -/
def validateLeadForm (fd : FormData) : List ValidationError :=
  (if fd.name.data.all Char.isWhitespace then [⟨"name", "Name is required"⟩]
   else []) ++
    (if fd.email = "" ∨ emailShape fd.email = false then
      [⟨"email", "Please enter a valid email address"⟩] else []) ++
    (if allowedIndustries.contains fd.industry then []
     else [⟨"industry", "Please select an industry"⟩])

/-- Outcome of the database insert: success, a returned error object, or a
timeout-triggered abort (a thrown exception); the latter two reach the same
`catch` block of `handleSubmit`. -/
inductive InsertResult where
  | ok
  | dbError (msg : String)
  | aborted
  deriving DecidableEq, Repr

/-- Outcome of the confirmation-email invocation: success, a returned error
object, or a timeout-triggered abort (a thrown exception). -/
inductive NotifyResult where
  | ok
  | invokeError (msg : String)
  | aborted
  deriving DecidableEq, Repr

/-- The insert did not succeed. -/
def insertFailed : InsertResult → Bool
  | .ok => false
  | .dbError _ => true
  | .aborted => true

/-- The notify call did not succeed. -/
def notifyFailed : NotifyResult → Bool
  | .ok => false
  | .invokeError _ => true
  | .aborted => true

/-- The `emailSent` flag the controller attaches: `true` exactly when the
notify invocation returned without an error and without throwing. -/
def notifySent : NotifyResult → Bool
  | .ok => true
  | .invokeError _ => false
  | .aborted => false

/-- One observable action of `handleSubmit`, in issue order: the two remote
calls and the two store mutations of the success path. -/
inductive SubmitEvent where
  | insertAttempt (name email industry submitted_at : String)
  | notifyAttempt (name email industry : String)
  | addLeadCall (lead : Lead)
  | setSubmittedCall (b : Bool)
  deriving DecidableEq, Repr

/-- The event is one of the two remote calls. -/
def isRemoteCall : SubmitEvent → Bool
  | .insertAttempt _ _ _ _ => true
  | .notifyAttempt _ _ _ => true
  | .addLeadCall _ => false
  | .setSubmittedCall _ => false

/-- The event is the notify invocation. -/
def isNotifyCall : SubmitEvent → Bool
  | .notifyAttempt _ _ _ => true
  | _ => false

/-- Everything `handleSubmit` leaves behind: the store state, the component
state `formData` and `validationErrors`, and the trace of issued actions. -/
structure SubmitResult where
  store : LeadStore
  formData : FormData
  validationErrors : List ValidationError
  events : List SubmitEvent
  deriving DecidableEq, Repr

/-- `handleSubmit` of the form component.  `now` stands for
`new Date().toISOString()`; `insertRes` and `notifyRes` are the outcomes of
the two awaited remote calls.  Mirrors the source: clear the store error, set
loading, validate; on validation errors stop before any remote call; else
insert (failure: log, loading off, return — the store error is not touched);
on insert success invoke notify, then `addLead` with `emailSent` true exactly
when notify succeeded, set submitted, clear the form fields; loading off at
the end. -/
def handleSubmit (fd : FormData) (now : String) (insertRes : InsertResult)
    (notifyRes : NotifyResult) (s0 : LeadStore) : SubmitResult :=
  let s1 := setLoading (clearError s0) true
  let errors := validateLeadForm fd
  if errors.length = 0 then
    let lead : Lead :=
      { name := fd.name, email := fd.email, industry := fd.industry,
        submitted_at := now, emailSent := none }
    let evInsert := SubmitEvent.insertAttempt fd.name fd.email fd.industry now
    match insertRes with
    | .dbError _ =>
      { store := setLoading s1 false, formData := fd,
        validationErrors := errors, events := [evInsert] }
    | .aborted =>
      { store := setLoading s1 false, formData := fd,
        validationErrors := errors, events := [evInsert] }
    | .ok =>
      let storedLead : Lead := { lead with emailSent := some (notifySent notifyRes) }
      let s2 := addLead s1 storedLead
      let s3 := setSubmitted s2 true
      { store := setLoading s3 false,
        formData := { name := "", email := "", industry := "" },
        validationErrors := errors,
        events := [evInsert,
          SubmitEvent.notifyAttempt fd.name fd.email fd.industry,
          SubmitEvent.addLeadCall storedLead,
          SubmitEvent.setSubmittedCall true] }
  else
    { store := setLoading s1 false, formData := fd,
      validationErrors := errors, events := [] }

/-- What the success view reports: when `submitted` is true the component
renders the session count `sessionLeads.length`, otherwise the entry form. -/
def successViewCount (s : LeadStore) : Option Nat :=
  if s.submitted then some s.sessionLeads.length else none

/-- The concrete submission of the round-trip scenario. -/
def adaForm : FormData :=
  { name := "Ada", email := "ada@example.com", industry := "technology" }

/-- A concrete lead used to exercise the store operations. -/
def adaLead : Lead :=
  { name := "Ada", email := "ada@example.com", industry := "technology",
    submitted_at := "2026-01-01T00:00:00.000Z", emailSent := none }

/-- The duplicate check of `addLead` answers membership of the email. -/
theorem find?_email_isSome_iff (leads : List Lead) (e : String) :
    (leads.find? (fun l => l.email == e)).isSome = true ↔ ∃ l ∈ leads, l.email = e := by
  simp [List.find?_isSome, beq_iff_eq]

/-- A lead with a missing name or email is rejected: list kept, error set. -/
theorem addLead_keeps_when_missing (s : LeadStore) (lead : Lead)
    (h : lead.name = "" ∨ lead.email = "") :
    (addLead s lead).sessionLeads = s.sessionLeads ∧ (addLead s lead).error ≠ none := by
  rw [addLead, if_pos h]
  exact ⟨rfl, by simp⟩

/-- A lead whose email is already present is rejected: list kept, error set. -/
theorem addLead_keeps_when_dup (s : LeadStore) (lead : Lead)
    (h1 : ¬(lead.name = "" ∨ lead.email = ""))
    (h2 : ∃ l ∈ s.sessionLeads, l.email = lead.email) :
    (addLead s lead).sessionLeads = s.sessionLeads ∧ (addLead s lead).error ≠ none := by
  rw [addLead, if_neg h1, if_pos ((find?_email_isSome_iff _ _).mpr h2)]
  exact ⟨rfl, by simp⟩

/-- On a duplicate email, `addLead` only records the duplicate message. -/
theorem addLead_dup_error (s : LeadStore) (lead : Lead)
    (h1 : ¬(lead.name = "" ∨ lead.email = ""))
    (h2 : ∃ l ∈ s.sessionLeads, l.email = lead.email) :
    addLead s lead =
      { s with error := some "A lead with this email already exists in this session" } := by
  rw [addLead, if_neg h1, if_pos ((find?_email_isSome_iff _ _).mpr h2)]

/-- A valid, fresh lead is appended at the end and the error is cleared. -/
theorem addLead_appends (s : LeadStore) (lead : Lead)
    (hn : lead.name ≠ "") (he : lead.email ≠ "")
    (hd : ∀ l ∈ s.sessionLeads, l.email ≠ lead.email) :
    (addLead s lead).sessionLeads = s.sessionLeads ++ [lead] ∧
      (addLead s lead).error = none := by
  have h1 : ¬(lead.name = "" ∨ lead.email = "") := by tauto
  have h2 : ¬((s.sessionLeads.find? (fun l => l.email == lead.email)).isSome = true) := by
    rw [find?_email_isSome_iff]
    rintro ⟨l, hl, hle⟩
    exact hd l hl hle
  rw [addLead, if_neg h1, if_neg h2]
  exact ⟨rfl, rfl⟩

/-- `addLead` never touches the submitted flag. -/
theorem addLead_submitted (s : LeadStore) (lead : Lead) :
    (addLead s lead).submitted = s.submitted := by
  rw [addLead]
  split
  · rfl
  · split <;> rfl

/-- Every single store operation preserves email uniqueness. -/
theorem emailsUnique_applyOp {s : LeadStore} (h : emailsUnique s) (op : StoreOp) :
    emailsUnique (applyOp s op) := by
  cases op with
  | opSetSubmitted b => exact h
  | opClearError => exact h
  | opSetLoading b => exact h
  | opAddLead lead =>
    show emailsUnique (addLead s lead)
    rw [addLead]
    split
    · exact h
    · split
      · exact h
      · rename_i hfind
        have hnotin : ∀ l ∈ s.sessionLeads, ¬ l.email = lead.email := by
          intro l hl hle
          exact hfind ((find?_email_isSome_iff _ _).mpr ⟨l, hl, hle⟩)
        simpa [emailsUnique, List.nodup_append] using ⟨h, hnotin⟩

/-- Email uniqueness is preserved by any sequence of store operations. -/
theorem emailsUnique_runOps (ops : List StoreOp) (s : LeadStore) (h : emailsUnique s) :
    emailsUnique (runOps s ops) := by
  induction ops generalizing s with
  | nil => exact h
  | cons op rest ih => exact ih _ (emailsUnique_applyOp h op)

/-- A form that validates cleanly has a non-empty name. -/
theorem validateLeadForm_nil_name {fd : FormData} (h : validateLeadForm fd = []) :
    fd.name ≠ "" := by
  intro hn
  rw [validateLeadForm, hn,
    if_pos (by decide : (("" : String).data.all Char.isWhitespace) = true)] at h
  simp at h

/-- A form that validates cleanly has a non-empty email. -/
theorem validateLeadForm_nil_email {fd : FormData} (h : validateLeadForm fd = []) :
    fd.email ≠ "" := by
  intro he
  rw [validateLeadForm, if_pos (Or.inl he)] at h
  simp at h

/-- Shape of a submission that fails validation: no events at all, loading
back off, the store error cleared, everything else untouched. -/
theorem handleSubmit_validationFail_eq (fd : FormData) (now : String)
    (insertRes : InsertResult) (notifyRes : NotifyResult) (s0 : LeadStore)
    (hv : validateLeadForm fd ≠ []) :
    handleSubmit fd now insertRes notifyRes s0 =
      { store := setLoading (setLoading (clearError s0) true) false,
        formData := fd, validationErrors := validateLeadForm fd, events := [] } := by
  have hlen : ¬((validateLeadForm fd).length = 0) := by
    simpa [List.length_eq_zero] using hv
  simp [handleSubmit, hlen]

/-- Shape of a submission whose insert fails: only the insert was attempted,
loading back off, the store error cleared, store otherwise untouched. -/
theorem handleSubmit_insertFail_eq (fd : FormData) (now : String)
    (insertRes : InsertResult) (notifyRes : NotifyResult) (s0 : LeadStore)
    (hv : validateLeadForm fd = []) (hf : insertFailed insertRes = true) :
    handleSubmit fd now insertRes notifyRes s0 =
      { store := setLoading (setLoading (clearError s0) true) false,
        formData := fd, validationErrors := [],
        events := [SubmitEvent.insertAttempt fd.name fd.email fd.industry now] } := by
  cases insertRes with
  | ok => simp [insertFailed] at hf
  | dbError msg => simp [handleSubmit, hv]
  | aborted => simp [handleSubmit, hv]

/-- Shape of a submission whose insert succeeds: insert, then notify, then
`addLead` with the `emailSent` outcome, then submitted set; fields cleared. -/
theorem handleSubmit_ok_eq (fd : FormData) (now : String)
    (notifyRes : NotifyResult) (s0 : LeadStore)
    (hv : validateLeadForm fd = []) :
    handleSubmit fd now InsertResult.ok notifyRes s0 =
      { store := setLoading (setSubmitted
          (addLead (setLoading (clearError s0) true)
            ⟨fd.name, fd.email, fd.industry, now, some (notifySent notifyRes)⟩) true) false,
        formData := { name := "", email := "", industry := "" },
        validationErrors := [],
        events := [SubmitEvent.insertAttempt fd.name fd.email fd.industry now,
          SubmitEvent.notifyAttempt fd.name fd.email fd.industry,
          SubmitEvent.addLeadCall
            ⟨fd.name, fd.email, fd.industry, now, some (notifySent notifyRes)⟩,
          SubmitEvent.setSubmittedCall true] } := by
  simp [handleSubmit, hv]

end LeadCapture
namespace LeadCapture

/-- C1 counterexample: a concrete submission whose insert fails with a remote
error leaves the store error field `none` — the failure is not surfaced as a
session-level error message in the store, contrary to the claim. -/
theorem C1_counterexample :
    (handleSubmit adaForm "2026-01-01T00:00:00.000Z"
        (InsertResult.dbError "insert failed") NotifyResult.ok
        initialStore).store.error = none := by decide

/-- C1 (amended): for every submission whose insert fails (remote error or
timeout/abort), the controller sets loading to false, adds no Lead to the
session collection and leaves the submitted flag unchanged (hence false when
it was false), but it does not surface the error in the store error field:
the field holds `none`, the failure being only logged. -/
theorem C1_amended_insert_failure (fd : FormData) (now : String)
    (insertRes : InsertResult) (notifyRes : NotifyResult) (s0 : LeadStore)
    (hv : validateLeadForm fd = []) (hf : insertFailed insertRes = true) :
    (handleSubmit fd now insertRes notifyRes s0).store.isLoading = false ∧
    (handleSubmit fd now insertRes notifyRes s0).store.sessionLeads = s0.sessionLeads ∧
    (handleSubmit fd now insertRes notifyRes s0).store.submitted = s0.submitted ∧
    (handleSubmit fd now insertRes notifyRes s0).store.error = none := by
  rw [handleSubmit_insertFail_eq fd now insertRes notifyRes s0 hv hf]
  exact ⟨rfl, rfl, rfl, rfl⟩

/-- C1 witness: the amended statement at a concrete failing submission. -/
theorem C1_amended_witness :
    (handleSubmit adaForm "2026-01-01T00:00:00.000Z" InsertResult.aborted
        NotifyResult.ok initialStore).store.isLoading = false ∧
    (handleSubmit adaForm "2026-01-01T00:00:00.000Z" InsertResult.aborted
        NotifyResult.ok initialStore).store.sessionLeads = initialStore.sessionLeads ∧
    (handleSubmit adaForm "2026-01-01T00:00:00.000Z" InsertResult.aborted
        NotifyResult.ok initialStore).store.submitted = initialStore.submitted ∧
    (handleSubmit adaForm "2026-01-01T00:00:00.000Z" InsertResult.aborted
        NotifyResult.ok initialStore).store.error = none :=
  C1_amended_insert_failure adaForm "2026-01-01T00:00:00.000Z" InsertResult.aborted
    NotifyResult.ok initialStore (by decide) (by decide)

/-- C2: when the insert succeeds and the notify call fails or times out, the
controller still hands the Lead to the store with `emailSent = false` (and,
when its email is fresh in the session, the Lead is indeed stored so), still
sets submitted to true, and attempts the notify step exactly once. -/
theorem C2_notify_failure_still_success (fd : FormData) (now : String)
    (notifyRes : NotifyResult) (s0 : LeadStore)
    (hv : validateLeadForm fd = []) (hn : notifyFailed notifyRes = true) :
    (handleSubmit fd now InsertResult.ok notifyRes s0).store.submitted = true ∧
    SubmitEvent.addLeadCall ⟨fd.name, fd.email, fd.industry, now, some false⟩ ∈
      (handleSubmit fd now InsertResult.ok notifyRes s0).events ∧
    ((handleSubmit fd now InsertResult.ok notifyRes s0).events.filter
        isNotifyCall).length = 1 ∧
    ((∀ l ∈ s0.sessionLeads, l.email ≠ fd.email) →
      (⟨fd.name, fd.email, fd.industry, now, some false⟩ : Lead) ∈
        (handleSubmit fd now InsertResult.ok notifyRes s0).store.sessionLeads) := by
  have hsent : notifySent notifyRes = false := by
    cases notifyRes with
    | ok => simp [notifyFailed] at hn
    | invokeError msg => rfl
    | aborted => rfl
  rw [handleSubmit_ok_eq fd now notifyRes s0 hv, hsent]
  refine ⟨rfl, ?_, ?_, ?_⟩
  · simp
  · simp [isNotifyCall, List.filter]
  · intro hd
    have happ := addLead_appends (setLoading (clearError s0) true)
      ⟨fd.name, fd.email, fd.industry, now, some false⟩
      (validateLeadForm_nil_name hv) (validateLeadForm_nil_email hv) hd
    show (⟨fd.name, fd.email, fd.industry, now, some false⟩ : Lead) ∈
      (addLead (setLoading (clearError s0) true)
        ⟨fd.name, fd.email, fd.industry, now, some false⟩).sessionLeads
    rw [happ.1]
    simp

/-- C2 witness: a concrete submission with a timed-out notify call. -/
theorem C2_witness :
    (handleSubmit adaForm "2026-01-01T00:00:00.000Z" InsertResult.ok
        NotifyResult.aborted initialStore).store.submitted = true ∧
    (⟨"Ada", "ada@example.com", "technology", "2026-01-01T00:00:00.000Z",
        some false⟩ : Lead) ∈
      (handleSubmit adaForm "2026-01-01T00:00:00.000Z" InsertResult.ok
        NotifyResult.aborted initialStore).store.sessionLeads := by
  have h := C2_notify_failure_still_success adaForm "2026-01-01T00:00:00.000Z"
    NotifyResult.aborted initialStore (by decide) (by decide)
  exact ⟨h.1, h.2.2.2 (by decide)⟩

/-- C3: `addLead` fails — keeping the list and setting the error — exactly
when the name is missing, the email is missing, or the email is already in
the session collection; otherwise it appends at the end and clears the error;
in particular a second add with the same email leaves exactly the one
previously stored lead and a non-null error. -/
theorem C3_addLead_characterization (s : LeadStore) (lead : Lead) :
    ((lead.name = "" ∨ lead.email = "" ∨ ∃ l ∈ s.sessionLeads, l.email = lead.email) →
      (addLead s lead).sessionLeads = s.sessionLeads ∧ (addLead s lead).error ≠ none) ∧
    (lead.name ≠ "" → lead.email ≠ "" → (∀ l ∈ s.sessionLeads, l.email ≠ lead.email) →
      (addLead s lead).sessionLeads = s.sessionLeads ++ [lead] ∧
        (addLead s lead).error = none) ∧
    (lead.name ≠ "" → lead.email ≠ "" → (∀ l ∈ s.sessionLeads, l.email ≠ lead.email) →
      ∀ lead2 : Lead, lead2.email = lead.email →
        (addLead (addLead s lead) lead2).sessionLeads = s.sessionLeads ++ [lead] ∧
          (addLead (addLead s lead) lead2).error ≠ none) := by
  refine ⟨?_, ?_, ?_⟩
  · intro h
    by_cases hme : lead.name = "" ∨ lead.email = ""
    · exact addLead_keeps_when_missing s lead hme
    · have hdup : ∃ l ∈ s.sessionLeads, l.email = lead.email := by tauto
      exact addLead_keeps_when_dup s lead hme hdup
  · intro hn he hd
    exact addLead_appends s lead hn he hd
  · intro hn he hd lead2 h2
    have happ := addLead_appends s lead hn he hd
    by_cases hme : lead2.name = "" ∨ lead2.email = ""
    · have h := addLead_keeps_when_missing (addLead s lead) lead2 hme
      exact ⟨h.1.trans happ.1, h.2⟩
    · have hdup : ∃ l ∈ (addLead s lead).sessionLeads, l.email = lead2.email := by
        refine ⟨lead, ?_, h2.symm⟩
        rw [happ.1]
        simp
      have h := addLead_keeps_when_dup (addLead s lead) lead2 hme hdup
      exact ⟨h.1.trans happ.1, h.2⟩

/-- C3 witness: adding the same lead twice to the empty session stores it
once and leaves a non-null error. -/
theorem C3_witness :
    (addLead (addLead initialStore adaLead) adaLead).sessionLeads =
      initialStore.sessionLeads ++ [adaLead] ∧
    (addLead (addLead initialStore adaLead) adaLead).error ≠ none :=
  (C3_addLead_characterization initialStore adaLead).2.2
    (by decide) (by decide) (by decide) adaLead rfl

/-- C4: in every state reachable from the initial empty store by any sequence
of `setSubmitted`, `addLead`, `clearError` and `setLoading`, no two session
leads share an email. -/
theorem C4_email_uniqueness_invariant (ops : List StoreOp) :
    emailsUnique (runOps initialStore ops) :=
  emailsUnique_runOps ops initialStore (by simp [emailsUnique, initialStore])

/-- C5: a submission with a non-empty validation error list issues no event
at all — in particular neither remote call — sets loading back to false and
leaves the session collection and the submitted flag unchanged. -/
theorem C5_validation_failure_no_remote_calls (fd : FormData) (now : String)
    (insertRes : InsertResult) (notifyRes : NotifyResult) (s0 : LeadStore)
    (hv : validateLeadForm fd ≠ []) :
    (handleSubmit fd now insertRes notifyRes s0).events = [] ∧
    (handleSubmit fd now insertRes notifyRes s0).store.isLoading = false ∧
    (handleSubmit fd now insertRes notifyRes s0).store.sessionLeads = s0.sessionLeads ∧
    (handleSubmit fd now insertRes notifyRes s0).store.submitted = s0.submitted := by
  rw [handleSubmit_validationFail_eq fd now insertRes notifyRes s0 hv]
  exact ⟨rfl, rfl, rfl, rfl⟩

/-- C5 witness: the all-empty form fails validation and stays local. -/
theorem C5_witness :
    (handleSubmit ⟨"", "", ""⟩ "2026-01-01T00:00:00.000Z" InsertResult.ok
        NotifyResult.ok initialStore).events = [] ∧
    (handleSubmit ⟨"", "", ""⟩ "2026-01-01T00:00:00.000Z" InsertResult.ok
        NotifyResult.ok initialStore).store.isLoading = false ∧
    (handleSubmit ⟨"", "", ""⟩ "2026-01-01T00:00:00.000Z" InsertResult.ok
        NotifyResult.ok initialStore).store.sessionLeads = initialStore.sessionLeads ∧
    (handleSubmit ⟨"", "", ""⟩ "2026-01-01T00:00:00.000Z" InsertResult.ok
        NotifyResult.ok initialStore).store.submitted = initialStore.submitted :=
  C5_validation_failure_no_remote_calls ⟨"", "", ""⟩ "2026-01-01T00:00:00.000Z"
    InsertResult.ok NotifyResult.ok initialStore (by decide)

/-- C6: in every submission the remote sub-trace is empty, just the insert,
or the insert followed by the notify call — the insert always comes first,
the notify call happens only when the insert succeeded, and the notify call
is issued at most once. -/
theorem C6_insert_before_notify (fd : FormData) (now : String)
    (insertRes : InsertResult) (notifyRes : NotifyResult) (s0 : LeadStore) :
    (((handleSubmit fd now insertRes notifyRes s0).events.filter isRemoteCall = []) ∨
     ((handleSubmit fd now insertRes notifyRes s0).events.filter isRemoteCall =
        [SubmitEvent.insertAttempt fd.name fd.email fd.industry now]) ∨
     ((handleSubmit fd now insertRes notifyRes s0).events.filter isRemoteCall =
        [SubmitEvent.insertAttempt fd.name fd.email fd.industry now,
         SubmitEvent.notifyAttempt fd.name fd.email fd.industry] ∧
       insertRes = InsertResult.ok)) ∧
    ((handleSubmit fd now insertRes notifyRes s0).events.filter isNotifyCall).length ≤ 1 := by
  by_cases hv : validateLeadForm fd = []
  · cases insertRes with
    | ok =>
      rw [handleSubmit_ok_eq fd now notifyRes s0 hv]
      refine ⟨Or.inr (Or.inr ⟨?_, rfl⟩), ?_⟩ <;>
        simp [isRemoteCall, isNotifyCall, List.filter]
    | dbError msg =>
      rw [handleSubmit_insertFail_eq fd now (InsertResult.dbError msg) notifyRes s0 hv rfl]
      refine ⟨Or.inr (Or.inl ?_), ?_⟩ <;>
        simp [isRemoteCall, isNotifyCall, List.filter]
    | aborted =>
      rw [handleSubmit_insertFail_eq fd now InsertResult.aborted notifyRes s0 hv rfl]
      refine ⟨Or.inr (Or.inl ?_), ?_⟩ <;>
        simp [isRemoteCall, isNotifyCall, List.filter]
  · rw [handleSubmit_validationFail_eq fd now insertRes notifyRes s0 hv]
    exact ⟨Or.inl rfl, by simp [List.filter]⟩

/-- C7: submitting the Ada form on the empty session with both remote calls
succeeding stores exactly one Lead with those three fields, the generated
timestamp and `emailSent = true`, reaches the success state, and the success
view reports a session count of 1. -/
theorem C7_round_trip (now : String) :
    (handleSubmit adaForm now InsertResult.ok NotifyResult.ok
        initialStore).store.sessionLeads =
      [⟨"Ada", "ada@example.com", "technology", now, some true⟩] ∧
    (handleSubmit adaForm now InsertResult.ok NotifyResult.ok
        initialStore).store.submitted = true ∧
    successViewCount (handleSubmit adaForm now InsertResult.ok NotifyResult.ok
        initialStore).store = some 1 := by
  have hv : validateLeadForm adaForm = [] := by decide
  rw [handleSubmit_ok_eq adaForm now NotifyResult.ok initialStore hv]
  simp [addLead, setLoading, clearError, setSubmitted, initialStore,
    successViewCount, notifySent, adaForm]

/-- C8: `setSubmitted` changes only the submitted flag — the session leads,
their count, the error field and the loading flag are untouched, so the lead
count persists across the success-view reset. -/
theorem C8_setSubmitted_frame (s : LeadStore) (b : Bool) :
    (setSubmitted s b).submitted = b ∧
    (setSubmitted s b).sessionLeads = s.sessionLeads ∧
    (setSubmitted s b).sessionLeads.length = s.sessionLeads.length ∧
    (setSubmitted s b).error = s.error ∧
    (setSubmitted s b).isLoading = s.isLoading :=
  ⟨rfl, rfl, rfl, rfl, rfl⟩

/-- C9: `addLead` never inspects the industry field: a lead with a non-empty
name, a non-empty fresh email and an empty industry is appended, with the
error cleared, so the store can hold a Lead with an empty industry. -/
theorem C9_addLead_ignores_industry (s : LeadStore) (n e ts : String)
    (es : Option Bool) (hn : n ≠ "") (he : e ≠ "")
    (hd : ∀ l ∈ s.sessionLeads, l.email ≠ e) :
    (addLead s ⟨n, e, "", ts, es⟩).sessionLeads =
      s.sessionLeads ++ [⟨n, e, "", ts, es⟩] ∧
    (addLead s ⟨n, e, "", ts, es⟩).error = none :=
  addLead_appends s ⟨n, e, "", ts, es⟩ hn he hd

/-- C9 witness: a lead with an empty industry is stored. -/
theorem C9_witness :
    (addLead initialStore ⟨"Ada", "ada@example.com", "",
        "2026-01-01T00:00:00.000Z", none⟩).sessionLeads =
      initialStore.sessionLeads ++ [⟨"Ada", "ada@example.com", "",
        "2026-01-01T00:00:00.000Z", none⟩] ∧
    (addLead initialStore ⟨"Ada", "ada@example.com", "",
        "2026-01-01T00:00:00.000Z", none⟩).error = none :=
  C9_addLead_ignores_industry initialStore "Ada" "ada@example.com"
    "2026-01-01T00:00:00.000Z" none (by decide) (by decide) (by decide)

/-- C10: a submission that passes validation, whose insert and notify both
succeed, but whose email already sits in the session collection, still sets
submitted to true while the store rejects the lead: the session collection is
unchanged and the error field holds the duplicate-email message. -/
theorem C10_duplicate_email_after_success (fd : FormData) (now : String)
    (s0 : LeadStore) (hv : validateLeadForm fd = [])
    (hd : ∃ l ∈ s0.sessionLeads, l.email = fd.email) :
    (handleSubmit fd now InsertResult.ok NotifyResult.ok s0).store.submitted = true ∧
    (handleSubmit fd now InsertResult.ok NotifyResult.ok s0).store.sessionLeads =
      s0.sessionLeads ∧
    (handleSubmit fd now InsertResult.ok NotifyResult.ok s0).store.error =
      some "A lead with this email already exists in this session" := by
  rw [handleSubmit_ok_eq fd now NotifyResult.ok s0 hv]
  have h1 : ¬((⟨fd.name, fd.email, fd.industry, now,
      some (notifySent NotifyResult.ok)⟩ : Lead).name = "" ∨
      (⟨fd.name, fd.email, fd.industry, now,
        some (notifySent NotifyResult.ok)⟩ : Lead).email = "") := by
    rintro (h | h)
    · exact validateLeadForm_nil_name hv h
    · exact validateLeadForm_nil_email hv h
  have hdup := addLead_dup_error (setLoading (clearError s0) true)
    ⟨fd.name, fd.email, fd.industry, now, some (notifySent NotifyResult.ok)⟩
    h1 hd
  rw [hdup]
  exact ⟨rfl, rfl, rfl⟩

/-- C10 witness: resubmitting an email that is already stored. -/
theorem C10_witness :
    (handleSubmit adaForm "2026-02-02T00:00:00.000Z" InsertResult.ok NotifyResult.ok
        { initialStore with sessionLeads := [adaLead] }).store.submitted = true ∧
    (handleSubmit adaForm "2026-02-02T00:00:00.000Z" InsertResult.ok NotifyResult.ok
        { initialStore with sessionLeads := [adaLead] }).store.sessionLeads =
      [adaLead] ∧
    (handleSubmit adaForm "2026-02-02T00:00:00.000Z" InsertResult.ok NotifyResult.ok
        { initialStore with sessionLeads := [adaLead] }).store.error =
      some "A lead with this email already exists in this session" := by
  have h := C10_duplicate_email_after_success adaForm "2026-02-02T00:00:00.000Z"
    { initialStore with sessionLeads := [adaLead] } (by decide)
    ⟨adaLead, by simp, by decide⟩
  exact h

end LeadCapture
